import Mathlib

/-!
# Theming module of react-native-windows

Embedding of `vnext/ReactUWP/Modules/ThemingModuleUwp.cpp` (the relay
`react::uwp::Theming`) and of `vnext/ReactWindowsCore/Modules/ThemingModule.cpp`
(the base class `facebook::react::Theming` and `ThemingModule::getMethods`).

Modelling conventions.

* A `const char*` is represented by the text it points at; that text is what
  `folly::dynamic::object(key, value)` copies into a payload. Every value the
  two cached fields ever hold is a string literal of `ThemingModuleUwp.cpp`.
* The one place where an address matters is the test
  `m_lastHighContrastState == "true"` of `Theming::HighContrastChanged`, which
  compares pointers. C++ leaves unspecified whether two identical literals are
  one object, so the relay is parameterised by a `LiteralLayout` that records
  what the build did with the two `"true"` literals of the file.
* `m_wkReactInstance.lock()` is an input of each handler invocation: `true`
  when the React instance is still alive, `false` when the weak pointer has
  expired.
* `instance->CallJsFunction(...)` is recorded in the list of outbound calls a
  member function returns.
-/

set_option linter.dupNamespace false

namespace folly

/-- The fragment of `folly::dynamic` the module builds: a C string, and the
object made by `folly::dynamic::object(key, value)`. -/
inductive dynamic where
  | string (s : String)
  | object (entries : List (String × String))
  deriving DecidableEq, Repr

end folly

/-- One `IReactInstance::CallJsFunction(moduleName, method, params)` invocation;
`params` is the `folly::dynamic::array(...)` argument. -/
structure JsCall where
  moduleName : String
  method : String
  params : List folly.dynamic
  deriving DecidableEq, Repr

namespace facebook.react

/-- Base class `facebook::react::Theming` (it has no data members). -/
structure Theming where
  deriving DecidableEq, Repr

/-- Base implementation `facebook::react::Theming::getTheme`. -/
def Theming.getTheme (_self : Theming) : String := "light"

/-- Base implementation `facebook::react::Theming::getHighContrast`. -/
def Theming.getHighContrast (_self : Theming) : String := "false"

end facebook.react

namespace react.uwp

/-- Data members of `react::uwp::Theming` that carry state: the two cached
C strings. -/
structure Theming where
  m_lastTheme : String
  m_lastHighContrastState : String
  deriving DecidableEq, Repr

/-- Outcome of running a member function of the relay: its return value, the
object afterwards, and the `CallJsFunction` calls it issued, in order. -/
structure Effect (α : Type) where
  ret : α
  self : Theming
  calls : List JsCall

/-- Constructor `Theming::Theming(reactInstance)`; `reactInstance` tells
whether the shared pointer handed in designates a live instance. The event
registrations do not touch the cached fields. -/
def Theming.Theming (_reactInstance : Bool) : react.uwp.Theming :=
  { m_lastTheme := "light", m_lastHighContrastState := "false" }

/-- Member `Theming::getTheme`. -/
def Theming.getTheme (self : react.uwp.Theming) : Effect String :=
  { ret := self.m_lastTheme, self := self, calls := [] }

/-- Member `Theming::getHighContrast`. -/
def Theming.getHighContrast (self : react.uwp.Theming) : Effect String :=
  { ret := self.m_lastHighContrastState, self := self, calls := [] }

/-- Member `Theming::fireThemeEvent`; `lock` is the outcome of
`m_wkReactInstance.lock()`. -/
def Theming.fireThemeEvent (self : react.uwp.Theming) (lock : Bool) (newTheme : String) :
    Effect Unit :=
  if lock then
    { ret := ()
      self := { self with m_lastTheme := newTheme }
      calls := [{ moduleName := "RCTDeviceEventEmitter", method := "emit",
                  params := [.string "themeDidChange", .object [("theme", newTheme)]] }] }
  else
    { ret := (), self := self, calls := [] }

/-- Member `Theming::fireHighContrastEvent`. -/
def Theming.fireHighContrastEvent (self : react.uwp.Theming) (lock : Bool)
    (newHighContrastState : String) : Effect Unit :=
  if lock then
    { ret := ()
      self := { self with m_lastHighContrastState := newHighContrastState }
      calls := [{ moduleName := "RCTDeviceEventEmitter", method := "emit",
                  params := [.string "highContrastDidChange",
                             .object [("highContrast", newHighContrastState)]] }] }
  else
    { ret := (), self := self, calls := [] }

/-- Handler `Theming::EnteredLightMode`. -/
def Theming.EnteredLightMode (self : react.uwp.Theming) (lock : Bool) : Effect Unit :=
  Theming.fireThemeEvent self lock "light"

/-- Handler `Theming::EnteredDarkMode`. -/
def Theming.EnteredDarkMode (self : react.uwp.Theming) (lock : Bool) : Effect Unit :=
  Theming.fireThemeEvent self lock "dark"

/-- What the build did with the two `"true"` literals of
`ThemingModuleUwp.cpp`: `trueLiteralsShared` holds when the literal passed to
`fireHighContrastEvent` in the `else` branch of `HighContrastChanged` was given
the address of the literal its `if` compares with (identical literals pooled),
and fails when they are two objects. -/
structure LiteralLayout where
  trueLiteralsShared : Bool
  deriving DecidableEq, Repr

/-- Handler `Theming::HighContrastChanged`. The test
`m_lastHighContrastState == "true"` compares the cached pointer with the
address of a literal. Equal addresses hold equal text, and the only pointer to
the text `"true"` the relay ever stores is the literal of the `else` branch,
so the test succeeds exactly when the cached text is `"true"` and the build
gave the two `"true"` literals one address. -/
def Theming.HighContrastChanged (layout : LiteralLayout) (self : react.uwp.Theming)
    (lock : Bool) : Effect Unit :=
  if self.m_lastHighContrastState = "true" ∧ layout.trueLiteralsShared = true then
    Theming.fireHighContrastEvent self lock "false"
  else
    Theming.fireHighContrastEvent self lock "true"

/-- A handler invocation of the relay. -/
inductive Invocation where
  | EnteredLightMode
  | EnteredDarkMode
  | HighContrastChanged
  | fireThemeEvent (newTheme : String)
  deriving DecidableEq, Repr

/-- Run one handler invocation; `lock` is whether the React instance is alive
when the handler runs. -/
def Theming.invoke (layout : LiteralLayout) (self : react.uwp.Theming) (lock : Bool) :
    Invocation → Effect Unit
  | .EnteredLightMode => Theming.EnteredLightMode self lock
  | .EnteredDarkMode => Theming.EnteredDarkMode self lock
  | .HighContrastChanged => Theming.HighContrastChanged layout self lock
  | .fireThemeEvent newTheme => Theming.fireThemeEvent self lock newTheme

/-- Run a finite sequence of handler invocations, each paired with the
liveness of the React instance at that invocation; the outbound calls are
collected in the order they were issued. -/
def Theming.run (layout : LiteralLayout) (self : react.uwp.Theming) :
    List (Invocation × Bool) → Effect Unit
  | [] => { ret := (), self := self, calls := [] }
  | (i, lock) :: rest =>
    let first := Theming.invoke layout self lock i
    let others := Theming.run layout first.self rest
    { ret := (), self := others.self, calls := first.calls ++ others.calls }

/-- The event name a call carries: the first element of its argument array. -/
def eventName (c : JsCall) : Option String :=
  match c.params with
  | .string name :: _ => some name
  | _ => none

/-- The value a call carries under `key`, when its second argument is a
single-key object with that key. -/
def payload (key : String) (c : JsCall) : Option String :=
  match c.params with
  | [_, .object [(k, v)]] => if k = key then some v else none
  | _ => none

/-- The payload under `key` of the most recent call named `name` in `calls`,
or `dflt` when no such call was issued. -/
def lastNotified (name key dflt : String) (calls : List JsCall) : String :=
  calls.foldl
    (fun acc c => if eventName c = some name then (payload key c).getD acc else acc) dflt

/-- Getter called `n` times in a row: the returned values, the relay at the
end, and every outbound call issued on the way. -/
def Theming.pollTheme (self : react.uwp.Theming) : Nat → Effect (List String)
  | 0 => { ret := [], self := self, calls := [] }
  | n + 1 =>
    let first := Theming.getTheme self
    let others := Theming.pollTheme first.self n
    { ret := first.ret :: others.ret, self := others.self, calls := first.calls ++ others.calls }

/-- Same as `pollTheme`, for `getHighContrast`. -/
def Theming.pollHighContrast (self : react.uwp.Theming) : Nat → Effect (List String)
  | 0 => { ret := [], self := self, calls := [] }
  | n + 1 =>
    let first := Theming.getHighContrast self
    let others := Theming.pollHighContrast first.self n
    { ret := first.ret :: others.ret, self := others.self, calls := first.calls ++ others.calls }

end react.uwp

namespace facebook.react

/-- One invocation of a callback handed to a module method, with the argument
list it was given. -/
inductive CallbackInvocation where
  | cbSuccess (args : List folly.dynamic)
  | cbFailure (args : List folly.dynamic)
  deriving DecidableEq, Repr

/-- Data members of `ThemingModule`: the two shared pointers, each represented
by the relay it designates (the virtual getters resolve to the overrides of
`react::uwp::Theming`). -/
structure ThemingModule where
  m_theme : react.uwp.Theming
  m_highContrast : react.uwp.Theming
  deriving DecidableEq, Repr

/-- Outcome of running the body of a module method: the module afterwards, the
callback invocations it made, and the outbound calls of the relay. -/
structure MethodOutcome where
  self : ThemingModule
  callbacks : List CallbackInvocation
  calls : List JsCall
  deriving DecidableEq, Repr

/-- A `CxxModule::Method` registered with `AsyncTag`: its name and its body.
The body captures `this`, so it reads the module as it is when the method is
invoked; `args` is the argument the bridge passes in. -/
structure Method where
  name : String
  func : ThemingModule → folly.dynamic → MethodOutcome

/-- Static member `ThemingModule::name`. -/
def ThemingModule.name : String := "Theming"

/-- Member `ThemingModule::getName`. -/
def ThemingModule.getName (_self : ThemingModule) : String := ThemingModule.name

/-- Member `ThemingModule::getMethods`. The second body reads the member the
header declares as `m_highContrast` (the source file spells it
`m_highContast`). -/
def ThemingModule.getMethods (_self : ThemingModule) : List Method :=
  [ { name := "getCurrentTheme"
      func := fun this _args =>
        let got := react.uwp.Theming.getTheme this.m_theme
        { self := { this with m_theme := got.self }
          callbacks := [.cbSuccess [.object [("theme", got.ret)]]]
          calls := got.calls } },
    { name := "getHighContrast"
      func := fun this _args =>
        let got := react.uwp.Theming.getHighContrast this.m_highContrast
        { self := { this with m_highContrast := got.self }
          callbacks := [.cbSuccess [.object [("highContrast", got.ret)]]]
          calls := got.calls } } ]

end facebook.react

/-! ## Auxiliary lemmas -/

namespace react.uwp

theorem highContrastChanged_expired (layout : LiteralLayout) (s : Theming) :
    (Theming.HighContrastChanged layout s false).self = s
      ∧ (Theming.HighContrastChanged layout s false).calls = [] := by
  simp only [Theming.HighContrastChanged, Theming.fireHighContrastEvent]
  split <;> simp

theorem invoke_calls_length (layout : LiteralLayout) (s : Theming) (lock : Bool)
    (i : Invocation) :
    (Theming.invoke layout s lock i).calls.length = if lock then 1 else 0 := by
  cases i <;> cases lock <;>
    simp [Theming.invoke, Theming.EnteredLightMode, Theming.EnteredDarkMode,
      Theming.HighContrastChanged, Theming.fireThemeEvent, Theming.fireHighContrastEvent]
  all_goals split <;> simp

theorem run_calls_length (layout : LiteralLayout) (s : Theming)
    (evs : List (Invocation × Bool)) :
    (Theming.run layout s evs).calls.length = (evs.filter (fun e => e.2)).length := by
  induction evs generalizing s with
  | nil => simp [Theming.run]
  | cons e rest ih =>
    obtain ⟨i, lock⟩ := e
    simp only [Theming.run, List.length_append, ih, invoke_calls_length]
    cases lock
    · simp [List.filter_cons]
    · simp [List.filter_cons]
      omega

theorem invoke_theme_lastNotified (layout : LiteralLayout) (s : Theming) (lock : Bool)
    (i : Invocation) :
    (Theming.invoke layout s lock i).self.m_lastTheme
      = lastNotified "themeDidChange" "theme" s.m_lastTheme
          (Theming.invoke layout s lock i).calls := by
  cases i <;> cases lock <;>
    simp [Theming.invoke, Theming.EnteredLightMode, Theming.EnteredDarkMode,
      Theming.HighContrastChanged, Theming.fireThemeEvent, Theming.fireHighContrastEvent,
      lastNotified, eventName, payload]
  all_goals split <;> simp

theorem invoke_highContrast_lastNotified (layout : LiteralLayout) (s : Theming) (lock : Bool)
    (i : Invocation) :
    (Theming.invoke layout s lock i).self.m_lastHighContrastState
      = lastNotified "highContrastDidChange" "highContrast" s.m_lastHighContrastState
          (Theming.invoke layout s lock i).calls := by
  cases i <;> cases lock <;>
    simp [Theming.invoke, Theming.EnteredLightMode, Theming.EnteredDarkMode,
      Theming.HighContrastChanged, Theming.fireThemeEvent, Theming.fireHighContrastEvent,
      lastNotified, eventName, payload]
  all_goals split <;> simp

theorem lastNotified_append (name key dflt : String) (xs ys : List JsCall) :
    lastNotified name key dflt (xs ++ ys)
      = lastNotified name key (lastNotified name key dflt xs) ys := by
  simp [lastNotified, List.foldl_append]

theorem run_theme_lastNotified (layout : LiteralLayout) (s : Theming)
    (evs : List (Invocation × Bool)) :
    (Theming.run layout s evs).self.m_lastTheme
      = lastNotified "themeDidChange" "theme" s.m_lastTheme (Theming.run layout s evs).calls := by
  induction evs generalizing s with
  | nil => simp [Theming.run, lastNotified]
  | cons e rest ih =>
    obtain ⟨i, lock⟩ := e
    simp only [Theming.run, lastNotified_append]
    rw [ih, ← invoke_theme_lastNotified]

theorem run_highContrast_lastNotified (layout : LiteralLayout) (s : Theming)
    (evs : List (Invocation × Bool)) :
    (Theming.run layout s evs).self.m_lastHighContrastState
      = lastNotified "highContrastDidChange" "highContrast" s.m_lastHighContrastState
          (Theming.run layout s evs).calls := by
  induction evs generalizing s with
  | nil => simp [Theming.run, lastNotified]
  | cons e rest ih =>
    obtain ⟨i, lock⟩ := e
    simp only [Theming.run, lastNotified_append]
    rw [ih, ← invoke_highContrast_lastNotified]

/-- Invocations of `HighContrastChanged` that find the instance expired do not
move the relay, whatever follows them. -/
theorem run_expired_prefix (layout : LiteralLayout) (s : Theming) (n : Nat)
    (rest : List (Invocation × Bool)) :
    (Theming.run layout s
        (List.replicate n (Invocation.HighContrastChanged, false) ++ rest)).self
      = (Theming.run layout s rest).self := by
  induction n with
  | zero => simp
  | succ n ih =>
    simp only [List.replicate_succ, List.cons_append, Theming.run, Theming.invoke,
      (highContrastChanged_expired layout s).1]
    exact ih

/-- When the two `"true"` literals share an address, consecutive
`HighContrastChanged` invocations flip the cached text once per invocation
that found the instance alive. -/
theorem run_highContrastChanged_parity (locks : List Bool) (t : String) :
    (Theming.run { trueLiteralsShared := true }
        { m_lastTheme := t, m_lastHighContrastState := "false" }
        (locks.map (fun lock => (Invocation.HighContrastChanged, lock)))).self.m_lastHighContrastState
      = (if locks.count true % 2 = 1 then "true" else "false")
    ∧ (Theming.run { trueLiteralsShared := true }
        { m_lastTheme := t, m_lastHighContrastState := "true" }
        (locks.map (fun lock => (Invocation.HighContrastChanged, lock)))).self.m_lastHighContrastState
      = (if locks.count true % 2 = 1 then "false" else "true") := by
  induction locks with
  | nil => simp [Theming.run]
  | cons lock rest ih =>
    obtain ⟨ihF, ihT⟩ := ih
    cases lock
    · simp only [List.map_cons, Theming.run, Theming.invoke, Theming.HighContrastChanged,
        Theming.fireHighContrastEvent]
      simpa using ⟨ihF, ihT⟩
    · simp only [List.map_cons, Theming.run, Theming.invoke, Theming.HighContrastChanged,
        Theming.fireHighContrastEvent]
      simp only [List.count_cons_self]
      have h : (List.count true rest + 1) % 2 = 1 ↔ ¬ (List.count true rest % 2 = 1) := by omega
      constructor
      · simp only [reduceCtorEq, ↓reduceIte, String.reduceEq, h, false_and]
        rw [ihT]; split <;> simp_all
      · simp only [reduceCtorEq, ↓reduceIte, String.reduceEq, h, and_self]
        rw [ihF]; split <;> simp_all

/-- In every layout a live `HighContrastChanged` issues exactly one
`"highContrastDidChange"` call whose payload is the value it caches, and that
value is `"true"` or `"false"`; from a cached `"false"` it is `"true"`, and when
the two `"true"` literals share an address it is the negation of the cached
value. -/
theorem highContrastChanged_live (layout : LiteralLayout) (s : Theming) :
    (Theming.HighContrastChanged layout s true).calls
        = [{ moduleName := "RCTDeviceEventEmitter", method := "emit",
             params := [.string "highContrastDidChange",
                        .object [("highContrast",
                          (Theming.HighContrastChanged layout s true).self.m_lastHighContrastState)]] }]
      ∧ ((Theming.HighContrastChanged layout s true).self.m_lastHighContrastState = "true"
          ∨ (Theming.HighContrastChanged layout s true).self.m_lastHighContrastState = "false")
      ∧ (s.m_lastHighContrastState ≠ "true" →
          (Theming.HighContrastChanged layout s true).self.m_lastHighContrastState = "true")
      ∧ ((Theming.HighContrastChanged { trueLiteralsShared := true } s
            true).self.m_lastHighContrastState = "false"
          ↔ s.m_lastHighContrastState = "true") := by
  simp only [Theming.HighContrastChanged, Theming.fireHighContrastEvent]
  refine ⟨?_, ?_, ?_, ?_⟩
  · split <;> simp
  · split <;> simp
  · intro h; simp [h]
  · by_cases h : s.m_lastHighContrastState = "true" <;> simp [h]

theorem pollTheme_eq (s : Theming) (n : Nat) :
    (Theming.pollTheme s n).ret = List.replicate n s.m_lastTheme
      ∧ (Theming.pollTheme s n).self = s ∧ (Theming.pollTheme s n).calls = [] := by
  induction n with
  | zero => simp [Theming.pollTheme]
  | succ n ih => simp [Theming.pollTheme, Theming.getTheme, ih, List.replicate_succ]

theorem pollHighContrast_eq (s : Theming) (n : Nat) :
    (Theming.pollHighContrast s n).ret = List.replicate n s.m_lastHighContrastState
      ∧ (Theming.pollHighContrast s n).self = s ∧ (Theming.pollHighContrast s n).calls = [] := by
  induction n with
  | zero => simp [Theming.pollHighContrast]
  | succ n ih => simp [Theming.pollHighContrast, Theming.getHighContrast, ih, List.replicate_succ]

end react.uwp

/-! ## The relay: cache and notifications -/

namespace react.uwp

/-- Claim C1, refuted as stated: on a freshly constructed relay whose React
instance has expired, `fireThemeEvent("dark")` leaves `getTheme()` at
`"light"`, so the cache is not updated to the new theme. -/
theorem fireThemeEvent_expired_keeps_theme :
    (Theming.getTheme (Theming.fireThemeEvent (Theming.Theming false) false "dark").self).ret
        = "light"
      ∧ (Theming.getTheme (Theming.fireThemeEvent (Theming.Theming false) false "dark").self).ret
        ≠ "dark" := by
  decide

/-- Claim C1, amended: for every prior state and theme value `x`, when the React
instance is alive `getTheme()` returns `x` right after `fireThemeEvent(x)`, also
after a second identical call, and `EnteredLightMode` / `EnteredDarkMode` leave
`"light"` / `"dark"`; when the instance has expired the relay is left as it
was, so `getTheme()` returns the previously cached theme. -/
theorem fireThemeEvent_getTheme (s : Theming) (x : String) :
    (Theming.getTheme (Theming.fireThemeEvent s true x).self).ret = x
      ∧ (Theming.getTheme
          (Theming.fireThemeEvent (Theming.fireThemeEvent s true x).self true x).self).ret = x
      ∧ (Theming.getTheme (Theming.EnteredLightMode s true).self).ret = "light"
      ∧ (Theming.getTheme (Theming.EnteredDarkMode s true).self).ret = "dark"
      ∧ (Theming.fireThemeEvent s false x).self = s
      ∧ (Theming.getTheme (Theming.fireThemeEvent s false x).self).ret
          = (Theming.getTheme s).ret := by
  simp [Theming.getTheme, Theming.fireThemeEvent, Theming.EnteredLightMode,
    Theming.EnteredDarkMode]

/-- Claim C2: with a live React instance one `fireThemeEvent(x)` issues exactly
one outbound call, `emit` on `RCTDeviceEventEmitter` with event name
`"themeDidChange"` and the single-key payload `theme ↦ x`; with an expired
instance it issues none. The same holds for the two platform handlers. -/
theorem fireThemeEvent_calls (s : Theming) (x : String) :
    (Theming.fireThemeEvent s true x).calls
        = [{ moduleName := "RCTDeviceEventEmitter", method := "emit",
             params := [.string "themeDidChange", .object [("theme", x)]] }]
      ∧ (Theming.fireThemeEvent s true x).calls.length = 1
      ∧ (Theming.fireThemeEvent s false x).calls = []
      ∧ (Theming.EnteredLightMode s true).calls
        = [{ moduleName := "RCTDeviceEventEmitter", method := "emit",
             params := [.string "themeDidChange", .object [("theme", "light")]] }]
      ∧ (Theming.EnteredDarkMode s true).calls
        = [{ moduleName := "RCTDeviceEventEmitter", method := "emit",
             params := [.string "themeDidChange", .object [("theme", "dark")]] }]
      ∧ (Theming.EnteredLightMode s false).calls = []
      ∧ (Theming.EnteredDarkMode s false).calls = [] := by
  simp [Theming.fireThemeEvent, Theming.EnteredLightMode, Theming.EnteredDarkMode]

/-- Claim C3, refuted as stated: one `HighContrastChanged` call on a freshly
constructed relay whose React instance has expired leaves `getHighContrast()`
at `"false"`, although the number of calls is odd; this is so whether or not
the build shares the two `"true"` literals. -/
theorem highContrastChanged_expired_keeps_state :
    (Theming.getHighContrast
        (Theming.run { trueLiteralsShared := true } (Theming.Theming false)
          [(.HighContrastChanged, false)]).self).ret = "false"
      ∧ ¬ ((Theming.getHighContrast
            (Theming.run { trueLiteralsShared := true } (Theming.Theming false)
              [(.HighContrastChanged, false)]).self).ret = "true" ↔ 1 % 2 = 1)
      ∧ (Theming.getHighContrast
        (Theming.run { trueLiteralsShared := false } (Theming.Theming false)
          [(.HighContrastChanged, false)]).self).ret = "false"
      ∧ ¬ ((Theming.getHighContrast
            (Theming.run { trueLiteralsShared := false } (Theming.Theming false)
              [(.HighContrastChanged, false)]).self).ret = "true" ↔ 1 % 2 = 1) := by
  decide

/-- Claim C3, amended: `HighContrastChanged` changes the cached value only when
the React instance is alive at the call; when the instance has expired the
relay is left as it was. Starting from the freshly constructed state, in every
layout of the literals `getHighContrast()` is `"false"` as long as every call
found the instance expired and `"true"` right after the first call that found
it alive. When the build gives the two `"true"` literals one address, after
any sequence of consecutive calls `getHighContrast()` is `"true"` when the
number of calls that found the instance alive is odd and `"false"` otherwise;
in particular after `n` calls with a live instance it is `"true"` exactly when
`n` is odd. -/
theorem highContrastChanged_toggles_when_live (reactInstance : Bool) :
    (∀ (layout : LiteralLayout) (s : Theming),
        (Theming.HighContrastChanged layout s false).self = s)
      ∧ (∀ (layout : LiteralLayout) (n : Nat),
        (Theming.getHighContrast
          (Theming.run layout (Theming.Theming reactInstance)
            (List.replicate n (Invocation.HighContrastChanged, false))).self).ret = "false")
      ∧ (∀ (layout : LiteralLayout) (n : Nat),
        (Theming.getHighContrast
          (Theming.run layout (Theming.Theming reactInstance)
            (List.replicate n (Invocation.HighContrastChanged, false)
              ++ [(Invocation.HighContrastChanged, true)])).self).ret = "true")
      ∧ (∀ locks : List Bool,
        (Theming.getHighContrast
          (Theming.run { trueLiteralsShared := true } (Theming.Theming reactInstance)
            (locks.map (fun lock => (Invocation.HighContrastChanged, lock)))).self).ret
          = (if locks.count true % 2 = 1 then "true" else "false"))
      ∧ (∀ n : Nat,
        (Theming.getHighContrast
          (Theming.run { trueLiteralsShared := true } (Theming.Theming reactInstance)
            (List.replicate n (Invocation.HighContrastChanged, true))).self).ret
          = (if n % 2 = 1 then "true" else "false")) := by
  refine ⟨fun layout s => (highContrastChanged_expired layout s).1, fun layout n => ?_,
    fun layout n => ?_, fun locks => ?_, fun n => ?_⟩
  · have h := run_expired_prefix layout (Theming.Theming reactInstance) n []
    rw [List.append_nil] at h
    simp only [Theming.getHighContrast, h]
    simp [Theming.run, Theming.Theming]
  · have h := run_expired_prefix layout (Theming.Theming reactInstance) n
      [(Invocation.HighContrastChanged, true)]
    simp only [Theming.getHighContrast, h]
    simp [Theming.run, Theming.invoke, Theming.Theming, Theming.HighContrastChanged,
      Theming.fireHighContrastEvent]
  · exact (run_highContrastChanged_parity locks "light").1
  · have h := (run_highContrastChanged_parity (List.replicate n true) "light").1
    simpa [Theming.getHighContrast, Theming.Theming] using h

/-- Claim C4, failing input: in a build that keeps the two `"true"` literals
apart, a relay that caches `"true"` is reached from construction by one live
`HighContrastChanged` call, and a further live call on it issues
`"highContrastDidChange"` with payload `highContrast ↦ "true"` and caches
`"true"` again, where the claim requires the negation `"false"`. -/
theorem highContrastChanged_unshared_repeats_true :
    (Theming.run { trueLiteralsShared := false } (Theming.Theming true)
        [(.HighContrastChanged, true)]).self
        = { m_lastTheme := "light", m_lastHighContrastState := "true" }
      ∧ (Theming.HighContrastChanged { trueLiteralsShared := false }
          { m_lastTheme := "light", m_lastHighContrastState := "true" } true).calls
        = [{ moduleName := "RCTDeviceEventEmitter", method := "emit",
             params := [.string "highContrastDidChange",
                        .object [("highContrast", "true")]] }]
      ∧ (Theming.getHighContrast
          (Theming.HighContrastChanged { trueLiteralsShared := false }
            { m_lastTheme := "light", m_lastHighContrastState := "true" } true).self).ret
        = "true"
      ∧ (Theming.getHighContrast
          (Theming.run { trueLiteralsShared := false } (Theming.Theming true)
            [(.HighContrastChanged, true), (.HighContrastChanged, true)]).self).ret
        = "true" := by
  decide

/-- Claim C5: a freshly constructed relay reports `getTheme() = "light"` and
`getHighContrast() = "false"`, whether the React instance handed to the
constructor is live or expired and before any handler has run; the getters of
the base class answer the same two values. -/
theorem constructed_defaults (reactInstance : Bool) (base : facebook.react.Theming)
    (layout : LiteralLayout) :
    (Theming.getTheme (Theming.Theming reactInstance)).ret = "light"
      ∧ (Theming.getHighContrast (Theming.Theming reactInstance)).ret = "false"
      ∧ (Theming.run layout (Theming.Theming reactInstance) []).self
          = Theming.Theming reactInstance
      ∧ facebook.react.Theming.getTheme base = "light"
      ∧ facebook.react.Theming.getHighContrast base = "false" := by
  simp [Theming.getTheme, Theming.getHighContrast, Theming.Theming, Theming.run,
    facebook.react.Theming.getTheme, facebook.react.Theming.getHighContrast]

/-- Claim C6: for every state and every finite sequence of handler invocations,
each with its own liveness of the React instance, the number of outbound calls
issued equals the number of invocations that ran while the instance was alive,
in every layout of the literals. No call is suppressed when the new value
equals the cached one: `fireThemeEvent` with the theme already cached still
issues its call. -/
theorem run_calls_count (layout : LiteralLayout) (s : Theming)
    (evs : List (Invocation × Bool)) :
    (Theming.run layout s evs).calls.length = (evs.filter (fun e => e.2)).length
      ∧ (Theming.fireThemeEvent s true s.m_lastTheme).calls.length = 1
      ∧ (Theming.EnteredLightMode (Theming.Theming true) true).calls.length = 1 := by
  refine ⟨run_calls_length layout s evs, ?_, ?_⟩ <;>
    simp [Theming.fireThemeEvent, Theming.EnteredLightMode]

/-- Claim C7: a theme handler leaves `getHighContrast()` unchanged and the
high-contrast handler leaves `getTheme()` unchanged, for every state, either
liveness of the React instance and every layout of the literals. -/
theorem handlers_frame (layout : LiteralLayout) (s : Theming) (lock : Bool) (x : String) :
    (Theming.getHighContrast (Theming.fireThemeEvent s lock x).self).ret
        = (Theming.getHighContrast s).ret
      ∧ (Theming.getHighContrast (Theming.EnteredLightMode s lock).self).ret
        = (Theming.getHighContrast s).ret
      ∧ (Theming.getHighContrast (Theming.EnteredDarkMode s lock).self).ret
        = (Theming.getHighContrast s).ret
      ∧ (Theming.getTheme (Theming.HighContrastChanged layout s lock).self).ret
        = (Theming.getTheme s).ret
      ∧ (Theming.getTheme (Theming.fireHighContrastEvent s lock x).self).ret
        = (Theming.getTheme s).ret := by
  by_cases h : s.m_lastHighContrastState = "true" ∧ layout.trueLiteralsShared = true <;>
    cases lock <;>
    simp [Theming.getHighContrast, Theming.getTheme, Theming.fireThemeEvent,
      Theming.EnteredLightMode, Theming.EnteredDarkMode, Theming.HighContrastChanged,
      Theming.fireHighContrastEvent, h]

/-- Claim C8: in every state each getter returns the cached value, leaves the
relay unchanged and issues no outbound call (the liveness of the React
instance is no input of a getter); called `n` times in a row a getter returns
the same cached value each time, with the relay unchanged and no outbound
call. -/
theorem getters_pure (s : Theming) (n : Nat) :
    (Theming.getTheme s).ret = s.m_lastTheme
      ∧ (Theming.getTheme s).self = s
      ∧ (Theming.getTheme s).calls = []
      ∧ (Theming.getHighContrast s).ret = s.m_lastHighContrastState
      ∧ (Theming.getHighContrast s).self = s
      ∧ (Theming.getHighContrast s).calls = []
      ∧ (Theming.pollTheme s n).ret = List.replicate n (Theming.getTheme s).ret
      ∧ (Theming.pollTheme s n).self = s
      ∧ (Theming.pollTheme s n).calls = []
      ∧ (Theming.pollHighContrast s n).ret = List.replicate n (Theming.getHighContrast s).ret
      ∧ (Theming.pollHighContrast s n).self = s
      ∧ (Theming.pollHighContrast s n).calls = [] := by
  have hT := pollTheme_eq s n
  have hH := pollHighContrast_eq s n
  simp [Theming.getTheme, Theming.getHighContrast, hT, hH]

/-- Claim C10: in every state reached from construction by any sequence of
handler invocations under any liveness of the React instance, and in every
layout of the literals, `getTheme()` is the `theme` payload of the last
`"themeDidChange"` call issued (`"light"` when none was) and
`getHighContrast()` is the `highContrast` payload of the last
`"highContrastDidChange"` call issued (`"false"` when none was); and a handler
invocation that issues no outbound call leaves the relay as it was. -/
theorem cache_matches_last_notification (layout : LiteralLayout) (reactInstance : Bool)
    (evs : List (Invocation × Bool)) :
    (Theming.getTheme (Theming.run layout (Theming.Theming reactInstance) evs).self).ret
        = lastNotified "themeDidChange" "theme" "light"
            (Theming.run layout (Theming.Theming reactInstance) evs).calls
      ∧ (Theming.getHighContrast
          (Theming.run layout (Theming.Theming reactInstance) evs).self).ret
        = lastNotified "highContrastDidChange" "highContrast" "false"
            (Theming.run layout (Theming.Theming reactInstance) evs).calls
      ∧ (∀ (s : Theming) (lock : Bool) (i : Invocation),
          (Theming.invoke layout s lock i).self = s
            ∨ (Theming.invoke layout s lock i).calls.length = 1) := by
  refine ⟨?_, ?_, fun s lock i => ?_⟩
  · exact run_theme_lastNotified layout (Theming.Theming reactInstance) evs
  · exact run_highContrast_lastNotified layout (Theming.Theming reactInstance) evs
  · cases lock
    · left
      cases i <;>
        simp only [Theming.invoke, Theming.EnteredLightMode, Theming.EnteredDarkMode,
          Theming.HighContrastChanged, Theming.fireThemeEvent, Theming.fireHighContrastEvent]
      all_goals first | rfl | (split <;> rfl)
    · right
      simpa using invoke_calls_length layout s true i

end react.uwp

/-! ## The module: polling entry points -/

namespace facebook.react

/-- Claim C9: `getMethods()` exposes exactly the two methods
`"getCurrentTheme"` and `"getHighContrast"`, in this order. Invoked on any
module and with any argument, the first calls the success callback exactly
once with the one-element list holding `theme ↦ getTheme()`, the second calls
it exactly once with `highContrast ↦ getHighContrast()`; neither calls the
failure callback, changes the cached state, or issues an outbound call. -/
theorem getMethods_polling (m : ThemingModule) (args : folly.dynamic) :
    (ThemingModule.getMethods m).map
        (fun k => (k.name, (k.func m args).callbacks, (k.func m args).self, (k.func m args).calls))
      = [ ("getCurrentTheme",
            [CallbackInvocation.cbSuccess
              [.object [("theme", (react.uwp.Theming.getTheme m.m_theme).ret)]]], m, []),
          ("getHighContrast",
            [CallbackInvocation.cbSuccess
              [.object [("highContrast",
                (react.uwp.Theming.getHighContrast m.m_highContrast).ret)]]], m, []) ] := by
  simp [ThemingModule.getMethods, react.uwp.Theming.getTheme, react.uwp.Theming.getHighContrast]

end facebook.react
